import Mathlib

/-!
Verification of the real-data collection and serialization layer of the
content-automation repository.

The Python sources are shallowly embedded as Lean definitions:

* `CollectedData`, `YouTubeVideo`, `TrendData` mirror the dataclasses of
  `services/data_collector.py`;
* `CollectedData.has_data` and `CollectedData.to_prompt_context` mirror the
  methods of the `CollectedData` dataclass;
* `fetch_youtube`, `fetch_trends`, `fetch_serp` mirror
  `DataCollector._fetch_youtube/_fetch_trends/_fetch_serp`, with the upstream
  HTTP responses represented by explicit inductive response values (a network
  or parsing exception, an error field in the JSON body, or a successful
  payload), and the shared Python error accumulator represented by explicit
  list passing;
* `smart_run` mirrors `SmartScriptCrew.run` of `crews/smart_script_crew.py`,
  with the generation backend (crew construction plus `kickoff`) abstracted as
  an opaque function of the collected snapshot;
* `handle_crew_error` mirrors the handler of `api/routes/agent_routes.py`;
* `engagement_run` mirrors `EngagementAnalyzerTool._run` of
  `tools/engagement_analyzer.py` on its non-exception path, with the
  network-derived trend score passed as a parameter.

Python floats are modelled as rationals, Python ints as `Int`/`Nat`, and
Python string formatting (`:,`, `:.0f`) as explicit functions on those types.
-/

/-! ### String helpers: substring occurrence and fold lemmas -/

/-- `occursIn pat s` states that `pat` occurs as a contiguous substring of
`s`. -/
def occursIn (pat s : String) : Prop :=
  ∃ a b : List Char, s.data = a ++ pat.data ++ b

/-! ### Number formatting (Python `:,` and `:.0f`)  -/

/-- Insert a comma after every third character of a reversed digit list; this
is the core of Python's thousands-separator formatting `f"{n:,}"`. -/
def commaRev : List Char → List Char
  | a :: b :: c :: d :: rest => a :: b :: c :: ',' :: commaRev (d :: rest)
  | l => l

/-- Python `f"{n:,}"` for a non-negative integer: decimal digits grouped in
threes by commas. -/
def fmtComma (n : Nat) : String :=
  String.mk ((commaRev (toString n).data.reverse).reverse)

/-- Python lowercasing (`str.lower`), character by character. -/
def strToLower (s : String) : String := String.mk (s.data.map Char.toLower)

/-- Round half to even, as Python rounding of floats does. -/
def rhe (q : ℚ) : ℤ :=
  if q - ⌊q⌋ < 1/2 then ⌊q⌋
  else if 1/2 < q - ⌊q⌋ then ⌊q⌋ + 1
  else if ⌊q⌋ % 2 = 0 then ⌊q⌋ else ⌊q⌋ + 1

/-- Python `f"{x:.0f}"`: the float rendered with zero decimal places, i.e.
rounded (half to even) to an integer. -/
def f0 (q : ℚ) : String := toString (rhe q)

/-- Python `round(x, 1)`: round half to even at one decimal place. -/
def round1 (q : ℚ) : ℚ := (rhe (q * 10) : ℚ) / 10

/-- Maximal runs of decimal digits in a character list, each read as a
number; accumulator carries the run being read. -/
def runsAux : List Char → Option Nat → List Nat
  | [], none => []
  | [], some n => [n]
  | c :: cs, none =>
    if c.isDigit then runsAux cs (some (c.toNat - 48)) else runsAux cs none
  | c :: cs, some n =>
    if c.isDigit then runsAux cs (some (n * 10 + (c.toNat - 48)))
    else n :: runsAux cs none

/-- Every number appearing in a string, reading maximal digit runs. -/
def numbersIn (s : String) : List Nat := runsAux s.data none

/-! ### Data model (`services/data_collector.py`) -/

/-- The `YouTubeVideo` dataclass. -/
structure YouTubeVideo where
  title : String
  video_id : String
  channel_name : String
  view_count : Nat
  like_count : Nat
  publish_date : String
  url : String
deriving DecidableEq

/-- The `TrendData` dataclass; `average_interest` is a Python float, modelled
as a rational. -/
structure TrendData where
  keyword : String
  current_interest : ℤ
  average_interest : ℚ
  trend_direction : String
  rising_queries : List String
deriving DecidableEq

/-- The `CollectedData` dataclass: one snapshot of everything collected for a
topic, together with the shared error accumulator. -/
structure CollectedData where
  topic : String
  platform : String
  collected_at : String
  youtube_videos : List YouTubeVideo := []
  trends : List TrendData := []
  serp_questions : List String := []
  errors : List String := []
deriving DecidableEq

/-- `CollectedData.has_data`:
`bool(self.youtube_videos or self.trends or self.serp_questions)`. -/
def CollectedData.has_data (d : CollectedData) : Bool :=
  !d.youtube_videos.isEmpty || !d.trends.isEmpty || !d.serp_questions.isEmpty

/-- One entry of the YouTube loop body in `to_prompt_context` (the f-string
at lines 64-70), for index `i` counted from 1. -/
def renderVideo (i : Nat) (v : YouTubeVideo) : String :=
  "\n" ++ toString i ++ ". \"" ++ v.title ++ "\"\n   Channel: " ++
    v.channel_name ++ "\n   Views: " ++ fmtComma v.view_count ++
    " | Likes: " ++ fmtComma v.like_count ++ "\n   Published: " ++
    v.publish_date ++ "\n   URL: " ++ v.url ++ "\n"

/-- One entry of the trends loop body in `to_prompt_context` (the f-string at
lines 78-83). -/
def renderTrend (t : TrendData) : String :=
  "\nKeyword: \"" ++ t.keyword ++ "\"\n- Interest: " ++
    toString t.current_interest ++ "/100 (avg: " ++ f0 t.average_interest ++
    ")\n- Direction: " ++ t.trend_direction ++ "\n- Rising queries: " ++
    (if t.rising_queries.isEmpty then "None"
     else String.intercalate ", " (t.rising_queries.take 5)) ++ "\n"

/-- `CollectedData.to_prompt_context`, translated statement by statement: the
string is built by successive `+=` on `ctx`, here successive rebindings. -/
def CollectedData.to_prompt_context (d : CollectedData) : String :=
  let ctx := "\n=== REAL DATA COLLECTED ===\nTopic: " ++ d.topic ++
    "\nPlatform: " ++ d.platform ++ "\nCollected: " ++ d.collected_at ++ "\n\n"
  let ctx :=
    if d.youtube_videos.isEmpty then ctx ++ "### YOUTUBE: No data (API issue)\n"
    else List.foldl (fun acc iv => acc ++ renderVideo iv.1 iv.2)
      (ctx ++ "### TOP YOUTUBE VIDEOS (REAL):\n")
      (List.enumFrom 1 (d.youtube_videos.take 10))
  let ctx :=
    if d.trends.isEmpty then ctx ++ "\n### GOOGLE TRENDS: No data\n"
    else List.foldl (fun acc t => acc ++ renderTrend t)
      (ctx ++ "\n### GOOGLE TRENDS (REAL):\n") d.trends
  let ctx :=
    if d.serp_questions.isEmpty then ctx ++ "\n### SERP QUESTIONS: No data\n"
    else List.foldl (fun acc q => acc ++ ("- " ++ q ++ "\n"))
      (ctx ++ "\n### PEOPLE ALSO ASK (REAL):\n") (d.serp_questions.take 10)
  let ctx :=
    if d.errors.isEmpty then ctx
    else List.foldl (fun acc e => acc ++ ("- " ++ e ++ "\n"))
      (ctx ++ "\n### DATA COLLECTION ISSUES:\n") d.errors
  ctx

/-! ### Section decomposition of `to_prompt_context` -/

/-- The header block of `to_prompt_context`. -/
def headerSection (d : CollectedData) : String :=
  "\n=== REAL DATA COLLECTED ===\nTopic: " ++ d.topic ++ "\nPlatform: " ++
    d.platform ++ "\nCollected: " ++ d.collected_at ++ "\n\n"

/-- The YouTube block of `to_prompt_context`. -/
def videosSection (vs : List YouTubeVideo) : String :=
  if vs.isEmpty then "### YOUTUBE: No data (API issue)\n"
  else "### TOP YOUTUBE VIDEOS (REAL):\n" ++
    List.foldl (fun acc iv => acc ++ renderVideo iv.1 iv.2) ""
      (List.enumFrom 1 (vs.take 10))

/-- The Google Trends block of `to_prompt_context`. -/
def trendsSection (ts : List TrendData) : String :=
  if ts.isEmpty then "\n### GOOGLE TRENDS: No data\n"
  else "\n### GOOGLE TRENDS (REAL):\n" ++
    List.foldl (fun acc t => acc ++ renderTrend t) "" ts

/-- The people-also-ask block of `to_prompt_context`. -/
def questionsSection (qs : List String) : String :=
  if qs.isEmpty then "\n### SERP QUESTIONS: No data\n"
  else "\n### PEOPLE ALSO ASK (REAL):\n" ++
    List.foldl (fun acc q => acc ++ ("- " ++ q ++ "\n")) "" (qs.take 10)

/-- The data-collection-issues block of `to_prompt_context`; the empty string
when there are no errors. -/
def errorsSection (es : List String) : String :=
  if es.isEmpty then ""
  else "\n### DATA COLLECTION ISSUES:\n" ++
    List.foldl (fun acc e => acc ++ ("- " ++ e ++ "\n")) "" es

/-! ### Provider clients (`DataCollector._fetch_youtube/_fetch_trends/_fetch_serp`)

Each upstream HTTP exchange is represented by an inductive response value:
a raised exception (network error, timeout, malformed body — anything the
`except` clause would catch), an error field in the parsed JSON, or a
successful payload. The shared Python `errors` accumulator is threaded as an
explicit list; a fetch returns its records paired with the updated list. -/

/-- One item of the YouTube search response: `item["id"].get("videoId")` and
the `snippet` fields read by the code. -/
structure SearchItem where
  videoId : Option String
  title : String
  channelTitle : String
  publishedAt : String
deriving DecidableEq

/-- One `statistics` object of the YouTube videos response; absent keys are
`Option.none` (the code reads them with `.get(key, 0)`). -/
structure StatEntry where
  viewCount : Option Nat
  likeCount : Option Nat
deriving DecidableEq

/-- Outcome of the YouTube search request. -/
inductive YTSearchResult where
  | exn (e : String)
  | errorField (msg : Option String)
  | ok (items : List SearchItem)
deriving DecidableEq

/-- Outcome of the YouTube statistics request; `entries` is the
identifier-keyed statistics map built at line 177. -/
inductive YTStatsResult where
  | exn (e : String)
  | ok (entries : List (String × StatEntry))
deriving DecidableEq

/-- The record constructed at lines 188-196 for one search item with video
identifier `vid`, given the statistics-map entry found for `vid`. -/
def mkVideo (it : SearchItem) (vid : String) (stats : Option StatEntry) :
    YouTubeVideo where
  title := it.title
  video_id := vid
  channel_name := it.channelTitle
  view_count := (stats.bind (fun st => st.viewCount)).getD 0
  like_count := (stats.bind (fun st => st.likeCount)).getD 0
  publish_date := it.publishedAt.take 10
  url := "https://youtube.com/watch?v=" ++ vid

/-- The loop at lines 179-196: items without a video identifier are skipped,
the rest get their statistics merged by identifier-keyed lookup. -/
def build_videos (items : List SearchItem)
    (entries : List (String × StatEntry)) : List YouTubeVideo :=
  items.filterMap (fun it =>
    match it.videoId with
    | none => none
    | some vid => some (mkVideo it vid (entries.lookup vid)))

/-- `DataCollector._fetch_youtube`. `key` is `self.youtube_key`. -/
def fetch_youtube (query : String) (key : Option String)
    (search : YTSearchResult) (stats : YTStatsResult)
    (errors : List String) : List YouTubeVideo × List String :=
  match key with
  | none => ([], errors ++ ["YOUTUBE_API_KEY not set"])
  | some _ =>
    match search with
    | .exn e => ([], errors ++ ["YouTube fetch failed: " ++ e])
    | .errorField msg =>
      ([], errors ++ ["YouTube API: " ++ msg.getD "Unknown error"])
    | .ok items =>
      if items.isEmpty then
        ([], errors ++ ["No YouTube videos found for: " ++ query])
      else if (items.filterMap (fun it => it.videoId)).isEmpty then
        ([], errors)
      else
        match stats with
        | .exn e => ([], errors ++ ["YouTube fetch failed: " ++ e])
        | .ok entries => (build_videos items entries, errors)

/-- The trend-direction computation at lines 228-233, with the float
constants 1.1 and 0.9 as rationals. -/
def trendDirection (current : ℤ) (avg : ℚ) : String :=
  if (current : ℚ) > avg * (11/10) then "📈 RISING"
  else if (current : ℚ) < avg * (9/10) then "📉 DECLINING"
  else "➡️ STABLE"

/-- Outcome of the pytrends exchange: an exception, or the interest-over-time
series for the topic together with the optional rising related queries
(`None` when the topic is missing from `related` or its `rising` frame is
`None`). -/
inductive TrendsResult where
  | exn (e : String)
  | ok (series : List ℤ) (rising : Option (List String))
deriving DecidableEq

/-- `DataCollector._fetch_trends`. `available` is `PYTRENDS_AVAILABLE`. -/
def fetch_trends (topic : String) (available : Bool) (resp : TrendsResult)
    (errors : List String) : List TrendData × List String :=
  if !available then
    ([], errors ++ ["pytrends not installed (pip install pytrends)"])
  else
    match resp with
    | .exn e => ([], errors ++ ["Google Trends failed: " ++ e])
    | .ok series rising =>
      if series.isEmpty then
        ([], errors ++ ["No Google Trends data for: " ++ topic])
      else
        let rising_queries := (rising.getD []).take 10
        let current := (series.getLast?).getD 0
        let avg : ℚ := (series.sum : ℚ) / (series.length : ℚ)
        ([{ keyword := topic, current_interest := current,
            average_interest := avg,
            trend_direction := trendDirection current avg,
            rising_queries := rising_queries }], errors)

/-- Outcome of the SERP request: exception, error field, or the list of
`related_questions` items (each with an optional `question` key). -/
inductive SerpResult where
  | exn (e : String)
  | errorField (msg : String)
  | ok (related_questions : List (Option String))
deriving DecidableEq

/-- `DataCollector._fetch_serp`. `key` is `self.serp_key`. -/
def fetch_serp (query : String) (key : Option String) (resp : SerpResult)
    (errors : List String) : List String × List String :=
  match key with
  | none => ([], errors ++ ["SERP_API_KEY not set"])
  | some _ =>
    match resp with
    | .exn e => ([], errors ++ ["SERP fetch failed: " ++ e])
    | .errorField msg => ([], errors ++ ["SERP API: " ++ msg])
    | .ok items => (items.filterMap id, errors)

/-! ### Pipeline guard (`SmartScriptCrew.run`) -/

/-- The dictionary returned by `SmartScriptCrew.run`: either the failure
dictionary of lines 300-305 or the success dictionary of lines 326-336. -/
inductive RunResult where
  | failure (error : String) (errors : List String) (message : String)
  | success (nVideos nTrends nQuestions : Nat) (errors : List String)
      (preview : String) (result : String)
deriving DecidableEq

/-- `SmartScriptCrew.run`, given the snapshot produced by
`collect_all` (step 1). Crew construction and `crew.kickoff` — the only
generation steps — are abstracted as the opaque function `kickoff` of the
snapshot; it is consulted only on the success path. -/
def smart_run (d : CollectedData) (kickoff : CollectedData → String) :
    RunResult :=
  if !d.has_data then
    .failure "Could not collect real data" d.errors
      "API data collection failed. Check your API keys."
  else
    .success d.youtube_videos.length d.trends.length d.serp_questions.length
      d.errors (d.to_prompt_context.take 500 ++ "...") (kickoff d)

/-! ### API error handler (`agent_routes.handle_crew_error`) -/

/-- Does `pat` occur in `s`? Executable substring test standing for the
Python `in` operator on strings. -/
def startsWithL : List Char → List Char → Bool
  | [], _ => true
  | _ :: _, [] => false
  | a :: as, b :: bs => a == b && startsWithL as bs

/-- Substring search on character lists. -/
def containsL : List Char → List Char → Bool
  | pat, [] => startsWithL pat []
  | pat, c :: tl => startsWithL pat (c :: tl) || containsL pat tl

/-- Python `pat in s` for strings. -/
def strContains (s pat : String) : Bool := containsL pat.data s.data

/-- An HTTP error response: `fastapi.HTTPException` with the two fields the
handler sets. -/
structure HTTPException where
  status_code : Nat
  detail : String
deriving DecidableEq

/-- The first guard of `handle_crew_error` (authentication errors). -/
def isAuthFailure (error_str : String) : Bool :=
  strContains error_str "authentication_error" ||
    strContains error_str "invalid x-api-key" || strContains error_str "401"

/-- The second guard of `handle_crew_error` (missing API key). The source
searches the case-sensitive pattern "API key" inside `error_str.lower()`, so
the second disjunct can never be true; it is reproduced as written. -/
def isMissingKey (error_str : String) : Bool :=
  strContains error_str "ANTHROPIC_API_KEY is required" ||
    strContains (strToLower error_str) "API key"

/-- `handle_crew_error` of `api/routes/agent_routes.py`, as a function of
`str(error)`. -/
def handle_crew_error (error_str : String) : HTTPException :=
  if isAuthFailure error_str then
    { status_code := 503,
      detail := "LLM service authentication failed. Please check ANTHROPIC_API_KEY configuration." }
  else if isMissingKey error_str then
    { status_code := 503,
      detail := "LLM API key not configured. Please set ANTHROPIC_API_KEY environment variable." }
  else
    { status_code := 500,
      detail := "An error occurred while processing your request. Please check the service configuration." }

/-! ### Engagement analyzer (`tools/engagement_analyzer.py`) -/

/-- `EngagementAnalyzerTool._get_platform_baseline`, floats as rationals. -/
def get_platform_baseline (platform : String) : ℚ :=
  let p := strToLower platform
  if p = "youtube" then 7/2
  else if p = "youtube shorts" then 26/5
  else if p = "instagram" then 14/5
  else if p = "instagram reels" then 19/5
  else if p = "tiktok" then 11/2
  else if p = "twitter" then 9/10
  else if p = "linkedin" then 21/10
  else if p = "facebook" then 3/2
  else 3

/-- `EngagementAnalyzerTool._get_niche_multiplier` (the `platform` argument
is unused in the source as well). -/
def get_niche_multiplier (niche : String) (platform : String) : ℚ :=
  let nl := strToLower niche
  if strContains nl "ai" || strContains nl "automation" ||
      strContains nl "technology" || strContains nl "tech" then 13/10
  else if strContains nl "finance" || strContains nl "money" ||
      strContains nl "business" || strContains nl "entrepreneur" then 5/4
  else if strContains nl "fitness" || strContains nl "health" ||
      strContains nl "wellness" then 23/20
  else if strContains nl "entertainment" || strContains nl "comedy" ||
      strContains nl "gaming" then 7/5
  else if strContains nl "education" || strContains nl "tutorial" ||
      strContains nl "how-to" || strContains nl "learning" then 6/5
  else if strContains nl "marketing" || strContains nl "social media" ||
      strContains nl "content" then 23/20
  else 1

/-- `EngagementAnalyzerTool._calculate_quality_score`. -/
def calculate_quality_score (has_hook has_visuals : Bool)
    (duration platform : String) : ℚ :=
  let score : ℚ := 1
  let score := if has_hook then score * (5/4) else score
  let score := if has_visuals then score * (23/20) else score
  let score :=
    if duration ≠ "" then
      let dl := strToLower duration
      if strToLower platform = "youtube shorts" ∨ strToLower platform = "tiktok" ∨
          strToLower platform = "instagram reels" then
        if strContains dl "15" || strContains dl "30" || strContains dl "60"
        then score * (11/10) else score
      else if strContains (strToLower platform) "youtube" then
        if strContains dl "8" || strContains dl "10" || strContains dl "12"
        then score * (11/10) else score
      else score
    else score
  min score (8/5)

/-- The numeric outcome of `EngagementAnalyzerTool._run` on its
non-exception path: the clamped estimate and the two displayed bounds. -/
structure EngagementEstimate where
  estimated_rate : ℚ
  lower_bound : ℚ
  upper_bound : ℚ
deriving DecidableEq

/-- Lines 40-61 of `EngagementAnalyzerTool._run`; `trend_score` stands for
the value returned by the network-dependent `_get_trend_score`. -/
def engagement_run (platform niche : String) (trend_score : ℚ)
    (has_hook has_visuals : Bool) (duration : String) : EngagementEstimate :=
  let baseline := get_platform_baseline platform
  let niche_multiplier := get_niche_multiplier niche platform
  let quality_score :=
    calculate_quality_score has_hook has_visuals duration platform
  let estimated_rate := baseline * niche_multiplier * trend_score * quality_score
  let estimated_rate := max (1/2) (min estimated_rate 15)
  { estimated_rate := estimated_rate,
    lower_bound := round1 (estimated_rate * (17/20)),
    upper_bound := round1 (estimated_rate * (23/20)) }

/-! ### Concrete sample data used by witnesses and counterexamples -/

/-- A snapshot in which all three providers failed: no records, one error
string per provider. -/
def sampleEmptySnapshot : CollectedData :=
  { topic := "ai agents", platform := "youtube",
    collected_at := "2025-01-01 00:00:00",
    errors := ["YOUTUBE_API_KEY not set",
      "pytrends not installed (pip install pytrends)",
      "SERP_API_KEY not set"] }

/-- A concrete video record. -/
def sampleVideo : YouTubeVideo :=
  { title := "Test video", video_id := "abc", channel_name := "Chan",
    view_count := 150000, like_count := 1200, publish_date := "2024-05-01",
    url := "https://youtube.com/watch?v=abc" }

/-- A snapshot holding one video and one provider error. -/
def sampleVideoSnapshot : CollectedData :=
  { topic := "ai", platform := "youtube", collected_at := "now",
    youtube_videos := [sampleVideo], errors := ["SERP_API_KEY not set"] }

/-- A snapshot whose only record is a trend with fractional average interest
253/5 = 50.6. -/
def roundedTrendSnapshot : CollectedData :=
  { topic := "ai", platform := "youtube", collected_at := "now",
    trends := [({ keyword := "ai", current_interest := 80,
                  average_interest := 253/5, trend_direction := "📈 RISING",
                  rising_queries := [] } : TrendData)] }

/-- Every numeric value held in a field of some record of the snapshot, as a
rational. -/
def literalNumericValues (d : CollectedData) : List ℚ :=
  d.youtube_videos.map (fun v => (v.view_count : ℚ)) ++
    d.youtube_videos.map (fun v => (v.like_count : ℚ)) ++
    d.trends.map (fun t => (t.current_interest : ℚ)) ++
    d.trends.map (fun t => t.average_interest)

/-! ### Helper lemmas -/

attribute [irreducible] renderVideo renderTrend

theorem occursIn_refl (p : String) : occursIn p p :=
  ⟨[], [], by simp⟩

theorem occursIn_of_eq_append (p s a b : String) (h : s = a ++ p ++ b) :
    occursIn p s :=
  ⟨a.data, b.data, by simp [h, String.data_append]⟩

theorem occursIn_append_left {p s : String} (t : String) (h : occursIn p s) :
    occursIn p (s ++ t) := by
  obtain ⟨a, b, hab⟩ := h
  exact ⟨a, b ++ t.data, by simp [String.data_append, hab]⟩

theorem occursIn_append_right {p t : String} (s : String) (h : occursIn p t) :
    occursIn p (s ++ t) := by
  obtain ⟨a, b, hab⟩ := h
  exact ⟨s.data ++ a, b, by simp [String.data_append, hab]⟩

theorem occursIn_trans {p q s : String} (h₁ : occursIn p q)
    (h₂ : occursIn q s) : occursIn p s := by
  obtain ⟨a, b, hab⟩ := h₁
  obtain ⟨c, d, hcd⟩ := h₂
  exact ⟨c ++ a, b ++ d, by simp [hcd, hab]⟩

theorem occursIn_foldl_init {p : String} {α : Type} (g : α → String)
    (l : List α) (s : String) (h : occursIn p s) :
    occursIn p (List.foldl (fun acc y => acc ++ g y) s l) := by
  induction l generalizing s with
  | nil => exact h
  | cons y ys ih => exact ih (s ++ g y) (occursIn_append_left (g y) h)

theorem occursIn_foldl_mem {α : Type} (g : α → String) (l : List α)
    (s : String) (x : α) (hx : x ∈ l) :
    occursIn (g x) (List.foldl (fun acc y => acc ++ g y) s l) := by
  induction l generalizing s with
  | nil => cases hx
  | cons y ys ih =>
    rcases List.mem_cons.1 hx with h | h
    · subst h
      exact occursIn_foldl_init g ys (s ++ g x)
        (occursIn_append_right s (occursIn_refl (g x)))
    · exact ih (s ++ g y) h

theorem foldl_append_eq {α : Type} (g : α → String) (l : List α) (s : String) :
    List.foldl (fun acc y => acc ++ g y) s l =
      s ++ List.foldl (fun acc y => acc ++ g y) "" l := by
  induction l generalizing s with
  | nil => simp [List.foldl]
  | cons y ys ih =>
    simp only [List.foldl]
    rw [ih (s ++ g y), ih ("" ++ g y), String.empty_append,
      String.append_assoc]

theorem mem_enumFrom_of_mem {α : Type} {x : α} :
    ∀ {l : List α} (n : Nat), x ∈ l → ∃ i, (i, x) ∈ List.enumFrom n l := by
  intro l
  induction l with
  | nil => intro n h; cases h
  | cons y ys ih =>
    intro n h
    rcases List.mem_cons.1 h with h | h
    · exact ⟨n, by simp [List.enumFrom_cons, h]⟩
    · obtain ⟨i, hi⟩ := ih (n + 1) h
      exact ⟨i, by simp [List.enumFrom_cons, hi]⟩

/-- A string that extends a literal cannot equal another string that differs
from the literal at some position inside the literal. -/
theorem append_ne_of_get {a : String} (b m : String) (n : Nat)
    (hn : n < a.data.length) (h : a.data.get? n ≠ m.data.get? n) :
    a ++ b ≠ m := by
  intro he
  apply h
  rw [← he, String.data_append, List.get?_append hn]

theorem videos_step (ctx : String) (vs : List YouTubeVideo) :
    (if vs.isEmpty then ctx ++ "### YOUTUBE: No data (API issue)\n"
     else List.foldl (fun acc iv => acc ++ renderVideo iv.1 iv.2)
       (ctx ++ "### TOP YOUTUBE VIDEOS (REAL):\n")
       (List.enumFrom 1 (vs.take 10))) = ctx ++ videosSection vs := by
  by_cases h : vs.isEmpty
  · simp [videosSection, h]
  · simp only [h, if_neg, Bool.false_eq_true, not_false_eq_true, ite_false]
    rw [foldl_append_eq, String.append_assoc]
    simp [videosSection, h]

theorem trends_step (ctx : String) (ts : List TrendData) :
    (if ts.isEmpty then ctx ++ "\n### GOOGLE TRENDS: No data\n"
     else List.foldl (fun acc t => acc ++ renderTrend t)
       (ctx ++ "\n### GOOGLE TRENDS (REAL):\n") ts) =
      ctx ++ trendsSection ts := by
  by_cases h : ts.isEmpty
  · simp [trendsSection, h]
  · simp only [h, if_neg, Bool.false_eq_true, not_false_eq_true, ite_false]
    rw [foldl_append_eq, String.append_assoc]
    simp [trendsSection, h]

theorem questions_step (ctx : String) (qs : List String) :
    (if qs.isEmpty then ctx ++ "\n### SERP QUESTIONS: No data\n"
     else List.foldl (fun acc q => acc ++ ("- " ++ q ++ "\n"))
       (ctx ++ "\n### PEOPLE ALSO ASK (REAL):\n") (qs.take 10)) =
      ctx ++ questionsSection qs := by
  by_cases h : qs.isEmpty
  · simp [questionsSection, h]
  · simp only [h, if_neg, Bool.false_eq_true, not_false_eq_true, ite_false]
    rw [foldl_append_eq, String.append_assoc]
    simp [questionsSection, h]

theorem errors_step (ctx : String) (es : List String) :
    (if es.isEmpty then ctx
     else List.foldl (fun acc e => acc ++ ("- " ++ e ++ "\n"))
       (ctx ++ "\n### DATA COLLECTION ISSUES:\n") es) =
      ctx ++ errorsSection es := by
  by_cases h : es.isEmpty
  · simp [errorsSection, h]
  · simp only [h, if_neg, Bool.false_eq_true, not_false_eq_true, ite_false]
    rw [foldl_append_eq, String.append_assoc]
    simp [errorsSection, h]

theorem to_prompt_context_eq (d : CollectedData) :
    d.to_prompt_context =
      headerSection d ++ videosSection d.youtube_videos ++
        trendsSection d.trends ++ questionsSection d.serp_questions ++
        errorsSection d.errors := by
  simp only [CollectedData.to_prompt_context]
  rw [errors_step, questions_step, trends_step, videos_step]
  rfl

theorem renderVideo_split (i : Nat) (v : YouTubeVideo) :
    renderVideo i v =
      ("\n" ++ toString i ++ ". \"" ++ v.title ++ "\"\n   Channel: " ++
        v.channel_name) ++
        ("\n   Views: " ++ fmtComma v.view_count ++ " | Likes: " ++
          fmtComma v.like_count ++ "\n   Published: ") ++
        (v.publish_date ++ "\n   URL: " ++ v.url ++ "\n") := by
  simp only [renderVideo]
  simp only [String.append_assoc]

theorem renderTrend_split (t : TrendData) :
    renderTrend t =
      ("\nKeyword: \"" ++ t.keyword) ++
        ("\"\n- Interest: " ++ toString t.current_interest ++
          "/100 (avg: " ++ f0 t.average_interest ++ ")\n- Direction: ") ++
        (t.trend_direction ++ "\n- Rising queries: " ++
          (if t.rising_queries.isEmpty then "None"
           else String.intercalate ", " (t.rising_queries.take 5)) ++ "\n") := by
  simp only [renderTrend]
  simp only [String.append_assoc]

theorem toLower_ne_A (c : Char) : Char.toLower c ≠ 'A' := by
  intro he
  simp only [Char.toLower] at he
  by_cases h : c.toNat ≥ 65 ∧ c.toNat ≤ 90
  · rw [if_pos h] at he
    have hv : (c.toNat + 32).isValidChar := Or.inl (by omega)
    have ht : (Char.ofNat (c.toNat + 32)).toNat = c.toNat + 32 := by
      unfold Char.ofNat
      rw [dif_pos hv]
      simp [Char.ofNatAux, Char.toNat, UInt32.toNat]
    have h65 : ('A').toNat = 65 := rfl
    rw [he, h65] at ht
    omega
  · rw [if_neg h] at he
    apply h
    rw [he]
    exact ⟨by decide, by decide⟩

theorem containsL_A_map_toLower (r : List Char) (l : List Char) :
    containsL ('A' :: r) (l.map Char.toLower) = false := by
  induction l with
  | nil => rfl
  | cons c cs ih =>
    simp only [List.map_cons, containsL, startsWithL]
    rw [ih]
    have hne : ('A' == Char.toLower c) = false :=
      beq_eq_false_iff_ne.mpr (fun he => toLower_ne_A c he.symm)
    simp [hne]

theorem isMissingKey_eq (s : String) :
    isMissingKey s = strContains s "ANTHROPIC_API_KEY is required" := by
  unfold isMissingKey
  have hdead : strContains (strToLower s) "API key" = false := by
    unfold strContains strToLower
    exact containsL_A_map_toLower _ s.data
  rw [hdead, Bool.or_false]

/-! ### Claims -/

/-- C1: `has_data` is true exactly when at least one of the three record
lists is non-empty, and the `errors` list has no influence on it. -/
theorem C1_has_data_iff (d : CollectedData) :
    (d.has_data = true ↔
      (d.youtube_videos ≠ [] ∨ d.trends ≠ [] ∨ d.serp_questions ≠ [])) ∧
    (∀ es : List String,
      CollectedData.has_data { d with errors := es } = d.has_data) := by
  constructor
  · simp only [CollectedData.has_data, Bool.or_eq_true, Bool.not_eq_true',
      List.isEmpty_eq_false, List.isEmpty_iff, or_assoc]
  · intro es
    rfl

/-- C2: the trend direction is RISING exactly when `current > 1.1 * average`,
DECLINING exactly when `current < 0.9 * average`, STABLE otherwise, and at
both boundary values it is STABLE; `average` is a non-negative interest
average. -/
theorem C2_trend_direction (c : ℤ) (a : ℚ) (ha : 0 ≤ a) :
    (trendDirection c a = "📈 RISING" ↔ (c : ℚ) > 11/10 * a) ∧
    (trendDirection c a = "📉 DECLINING" ↔ (c : ℚ) < 9/10 * a) ∧
    (trendDirection c a = "➡️ STABLE" ↔
      ¬((c : ℚ) > 11/10 * a) ∧ ¬((c : ℚ) < 9/10 * a)) ∧
    ((c : ℚ) = 11/10 * a → trendDirection c a = "➡️ STABLE") ∧
    ((c : ℚ) = 9/10 * a → trendDirection c a = "➡️ STABLE") := by
  have hRD : ("📈 RISING" : String) ≠ "📉 DECLINING" := by decide
  have hRS : ("📈 RISING" : String) ≠ "➡️ STABLE" := by decide
  have hDS : ("📉 DECLINING" : String) ≠ "➡️ STABLE" := by decide
  have hle : (9:ℚ)/10 * a ≤ 11/10 * a := by nlinarith
  unfold trendDirection
  rw [mul_comm a (11/10 : ℚ), mul_comm a (9/10 : ℚ)]
  by_cases hr : (c : ℚ) > 11/10 * a
  · rw [if_pos hr]
    have hnd : ¬((c : ℚ) < 9/10 * a) := by linarith
    refine ⟨⟨fun _ => hr, fun _ => rfl⟩, ⟨fun h => absurd h hRD,
      fun h => absurd h hnd⟩, ⟨fun h => absurd h hRS,
      fun h => absurd hr h.1⟩, ?_, ?_⟩
    · intro heq
      rw [heq] at hr
      exact absurd hr (lt_irrefl _)
    · intro heq
      rw [heq] at hr
      linarith
  · rw [if_neg hr]
    by_cases hd : (c : ℚ) < 9/10 * a
    · rw [if_pos hd]
      refine ⟨⟨fun h => absurd h.symm hRD, fun h => absurd h hr⟩,
        ⟨fun _ => hd, fun _ => rfl⟩, ⟨fun h => absurd h hDS,
        fun h => absurd hd h.2⟩, ?_, ?_⟩
      · intro heq
        rw [heq] at hd
        linarith
      · intro heq
        rw [heq] at hd
        exact absurd hd (lt_irrefl _)
    · rw [if_neg hd]
      exact ⟨⟨fun h => absurd h.symm hRS, fun h => absurd h hr⟩,
        ⟨fun h => absurd h.symm hDS, fun h => absurd h hd⟩,
        ⟨fun _ => ⟨hr, hd⟩, fun _ => rfl⟩, fun _ => rfl, fun _ => rfl⟩

/-- Witness for C2 at the boundary: current 11 equals 1.1 times average 10,
and the computed direction is STABLE. -/
theorem C2_trend_direction_witness : trendDirection 11 10 = "➡️ STABLE" :=
  (C2_trend_direction 11 10 (by norm_num)).2.2.2.1 (by push_cast; norm_num)

/-- C9: `to_prompt_context` is deterministic: equal snapshots produce equal
text. -/
theorem C9_deterministic (s t : CollectedData) (h : s = t) :
    s.to_prompt_context = t.to_prompt_context := by
  rw [h]

/-- Witness for C9 at a concrete snapshot. -/
theorem C9_deterministic_witness :
    sampleVideoSnapshot.to_prompt_context =
      sampleVideoSnapshot.to_prompt_context :=
  C9_deterministic sampleVideoSnapshot sampleVideoSnapshot rfl

/-- C5: when the collected snapshot has no data, `SmartScriptCrew.run`
returns the failure dictionary carrying the accumulated provider errors, and
its result does not depend on the generation backend (no generation step is
constructed or run). -/
theorem C5_refuses_generation (d : CollectedData)
    (k₁ k₂ : CollectedData → String) (h : d.has_data = false) :
    smart_run d k₁ =
      .failure "Could not collect real data" d.errors
        "API data collection failed. Check your API keys." ∧
    smart_run d k₁ = smart_run d k₂ := by
  unfold smart_run
  rw [h]
  exact ⟨rfl, rfl⟩

/-- Witness for C5: all three providers failed, the pipeline reports failure
with the three error strings, independent of the generation backend. -/
theorem C5_refuses_generation_witness :
    smart_run sampleEmptySnapshot (fun _ => "script A") =
      .failure "Could not collect real data"
        ["YOUTUBE_API_KEY not set",
          "pytrends not installed (pip install pytrends)",
          "SERP_API_KEY not set"]
        "API data collection failed. Check your API keys." ∧
    smart_run sampleEmptySnapshot (fun _ => "script A") =
      smart_run sampleEmptySnapshot (fun _ => "script B") :=
  C5_refuses_generation sampleEmptySnapshot _ _ rfl

theorem rhe_close (q : ℚ) : |(rhe q : ℚ) - q| ≤ 1/2 := by
  unfold rhe
  have h0 : ((⌊q⌋ : ℚ)) ≤ q := Int.floor_le q
  have h1 : q < (⌊q⌋ : ℚ) + 1 := Int.lt_floor_add_one q
  split_ifs with ha hb hc
  · rw [abs_sub_comm, abs_of_nonneg (by linarith)]
    linarith
  · push_cast
    rw [abs_of_nonneg (by linarith)]
    linarith
  · rw [abs_sub_comm, abs_of_nonneg (by linarith)]
    linarith
  · push_cast
    rw [abs_of_nonneg (by linarith)]
    linarith

theorem round1_close (q : ℚ) : |round1 q - q| ≤ 1/20 := by
  have h := rhe_close (q * 10)
  unfold round1
  have e : (rhe (q * 10) : ℚ)/10 - q = ((rhe (q * 10) : ℚ) - q * 10)/10 := by
    ring
  rw [e, abs_div, show |(10:ℚ)| = 10 from abs_of_nonneg (by norm_num),
    div_le_iff (by norm_num : (0:ℚ) < 10)]
  linarith

/-- C10: on the non-exception path, the engagement estimate is clamped into
[0.5, 15.0], the displayed bounds are 0.85 and 1.15 times the clamped value
rounded to one decimal place (round half to even, error at most 1/20), and
the content-quality multiplier never exceeds 1.6. -/
theorem C10_engagement_bounds (platform niche duration : String)
    (trend_score : ℚ) (has_hook has_visuals : Bool) :
    1/2 ≤ (engagement_run platform niche trend_score
      has_hook has_visuals duration).estimated_rate ∧
    (engagement_run platform niche trend_score
      has_hook has_visuals duration).estimated_rate ≤ 15 ∧
    (engagement_run platform niche trend_score
        has_hook has_visuals duration).lower_bound =
      round1 ((engagement_run platform niche trend_score
        has_hook has_visuals duration).estimated_rate * (17/20)) ∧
    (engagement_run platform niche trend_score
        has_hook has_visuals duration).upper_bound =
      round1 ((engagement_run platform niche trend_score
        has_hook has_visuals duration).estimated_rate * (23/20)) ∧
    calculate_quality_score has_hook has_visuals duration platform ≤ 8/5 ∧
    (∀ q : ℚ, |round1 q - q| ≤ 1/20) := by
  refine ⟨le_max_left _ _, max_le (by norm_num) (min_le_right _ _), rfl, rfl,
    ?_, round1_close⟩
  unfold calculate_quality_score
  exact min_le_right _ _

/-- C7: phase-2 statistics are merged onto phase-1 candidates by
identifier-keyed lookup; every candidate with a video identifier is kept
(the result has one record per such candidate), and a candidate whose
identifier has no statistics entry gets view and like counts 0. -/
theorem C7_stats_merge (items : List SearchItem)
    (entries : List (String × StatEntry)) :
    (build_videos items entries).length =
      items.countP (fun it => it.videoId.isSome) ∧
    (∀ it ∈ items, ∀ vid, it.videoId = some vid →
      mkVideo it vid (entries.lookup vid) ∈ build_videos items entries) ∧
    (∀ it ∈ items, ∀ vid, it.videoId = some vid → entries.lookup vid = none →
      mkVideo it vid none ∈ build_videos items entries ∧
      (mkVideo it vid none).view_count = 0 ∧
      (mkVideo it vid none).like_count = 0) := by
  refine ⟨?_, ?_, ?_⟩
  · induction items with
    | nil => rfl
    | cons it rest ih =>
      cases h : it.videoId with
      | none =>
        simpa [build_videos, List.filterMap_cons, h,
          List.countP_cons] using ih
      | some vid =>
        simpa [build_videos, List.filterMap_cons, h,
          List.countP_cons] using ih
  · intro it hit vid hvid
    exact List.mem_filterMap.2 ⟨it, hit, by rw [hvid]⟩
  · intro it hit vid hvid hnone
    refine ⟨?_, rfl, rfl⟩
    have h := List.mem_filterMap.2
      (⟨it, hit, by rw [hvid]⟩ :
        ∃ a ∈ items, (match a.videoId with
          | none => none
          | some vid => some (mkVideo a vid (entries.lookup vid))) =
          some (mkVideo it vid (entries.lookup vid)))
    rw [hnone] at h
    exact h

/-- Witness for C7: one candidate with an identifier but no statistics entry
is kept with zero counts. -/
theorem C7_stats_merge_witness :
    mkVideo ⟨some "abc", "T", "C", "2024-05-01T12:00:00Z"⟩ "abc" none ∈
      build_videos [⟨some "abc", "T", "C", "2024-05-01T12:00:00Z"⟩] [] ∧
    (mkVideo ⟨some "abc", "T", "C", "2024-05-01T12:00:00Z"⟩ "abc"
      none).view_count = 0 ∧
    (mkVideo ⟨some "abc", "T", "C", "2024-05-01T12:00:00Z"⟩ "abc"
      none).like_count = 0 :=
  (C7_stats_merge [⟨some "abc", "T", "C", "2024-05-01T12:00:00Z"⟩] []).2.2
    ⟨some "abc", "T", "C", "2024-05-01T12:00:00Z"⟩ (by decide) "abc" rfl rfl

/-- C8 counterexample: the error text "error" indicates no authentication or
credential problem, so the handler returns the generic 500 response, but that
response's detail does contain the underlying error text "error" as a
substring — refuting the claim that the 500 detail never includes the error
text. -/
theorem C8_counterexample :
    handle_crew_error "error" =
      { status_code := 500,
        detail := "An error occurred while processing your request. Please check the service configuration." } ∧
    occursIn "error" (handle_crew_error "error").detail :=
  ⟨rfl, ⟨"An ".data,
    " occurred while processing your request. Please check the service configuration.".data,
    by decide⟩⟩

/-- C8 amended: errors matching either credential guard get a 503 whose
detail names ANTHROPIC_API_KEY; every other error gets the generic 500 whose
detail is one fixed constant string, independent of the error text (though
that constant may incidentally share words with it). The second guard is
moreover dead code beyond its first disjunct: its case-sensitive pattern
"API key" is searched inside the lowercased error text and can never match,
so it fires exactly on errors containing the literal
"ANTHROPIC_API_KEY is required". -/
theorem C8_amended (s : String) :
    (isAuthFailure s = true →
      handle_crew_error s =
        { status_code := 503,
          detail := "LLM service authentication failed. Please check ANTHROPIC_API_KEY configuration." } ∧
      occursIn "ANTHROPIC_API_KEY" (handle_crew_error s).detail) ∧
    (isAuthFailure s = false → isMissingKey s = true →
      handle_crew_error s =
        { status_code := 503,
          detail := "LLM API key not configured. Please set ANTHROPIC_API_KEY environment variable." } ∧
      occursIn "ANTHROPIC_API_KEY" (handle_crew_error s).detail) ∧
    (isAuthFailure s = false → isMissingKey s = false →
      handle_crew_error s =
        { status_code := 500,
          detail := "An error occurred while processing your request. Please check the service configuration." }) ∧
    isMissingKey s = strContains s "ANTHROPIC_API_KEY is required" := by
  refine ⟨?_, ?_, ?_, isMissingKey_eq s⟩
  · intro h
    have hEq : handle_crew_error s =
        { status_code := 503,
          detail := "LLM service authentication failed. Please check ANTHROPIC_API_KEY configuration." } := by
      unfold handle_crew_error
      rw [if_pos h]
    refine ⟨hEq, ?_⟩
    rw [hEq]
    exact ⟨"LLM service authentication failed. Please check ".data,
      " configuration.".data, by decide⟩
  · intro h1 h2
    have hEq : handle_crew_error s =
        { status_code := 503,
          detail := "LLM API key not configured. Please set ANTHROPIC_API_KEY environment variable." } := by
      unfold handle_crew_error
      rw [if_neg (by simp [h1]), if_pos h2]
    refine ⟨hEq, ?_⟩
    rw [hEq]
    exact ⟨"LLM API key not configured. Please set ".data,
      " environment variable.".data, by decide⟩
  · intro h1 h2
    unfold handle_crew_error
    rw [if_neg (by simp [h1]), if_neg (by simp [h2])]

/-- Witness for C8 (amended) at the error text "401". -/
theorem C8_amended_witness :
    handle_crew_error "401" =
      { status_code := 503,
        detail := "LLM service authentication failed. Please check ANTHROPIC_API_KEY configuration." } :=
  ((C8_amended "401").1 (by decide)).1

/-- C3 counterexample: the SERP provider reached upstream and received an
empty result set (no related questions), yet appended zero error strings
instead of exactly one — so an all-providers-fail snapshot need not carry one
error per provider. -/
theorem C3_counterexample :
    (fetch_serp "ai" (some "key") (.ok []) []).1 = [] ∧
    ((fetch_serp "ai" (some "key") (.ok []) []).2).length = 0 :=
  ⟨rfl, rfl⟩

/-- C3 amended: every expected failure mode of the three provider fetches
appends exactly one descriptive error string and returns an empty sequence,
except two silent cases that return empty without appending anything: the
video provider when search items carry no video identifier, and the
related-questions provider when the response holds no questions. -/
theorem C3_amended :
    (∀ q st sp errs, fetch_youtube q none st sp errs =
      ([], errs ++ ["YOUTUBE_API_KEY not set"])) ∧
    (∀ q k sp errs e, fetch_youtube q (some k) (.exn e) sp errs =
      ([], errs ++ ["YouTube fetch failed: " ++ e])) ∧
    (∀ q k sp errs m, fetch_youtube q (some k) (.errorField m) sp errs =
      ([], errs ++ ["YouTube API: " ++ m.getD "Unknown error"])) ∧
    (∀ q k sp errs, fetch_youtube q (some k) (.ok []) sp errs =
      ([], errs ++ ["No YouTube videos found for: " ++ q])) ∧
    (∀ q k errs e items, items.isEmpty = false →
      (items.filterMap (fun it => it.videoId)).isEmpty = false →
      fetch_youtube q (some k) (.ok items) (.exn e) errs =
        ([], errs ++ ["YouTube fetch failed: " ++ e])) ∧
    (∀ q k sp errs items, items.isEmpty = false →
      (items.filterMap (fun it => it.videoId)).isEmpty = true →
      fetch_youtube q (some k) (.ok items) sp errs = ([], errs)) ∧
    (∀ t resp errs, fetch_trends t false resp errs =
      ([], errs ++ ["pytrends not installed (pip install pytrends)"])) ∧
    (∀ t errs e, fetch_trends t true (.exn e) errs =
      ([], errs ++ ["Google Trends failed: " ++ e])) ∧
    (∀ t errs rising, fetch_trends t true (.ok [] rising) errs =
      ([], errs ++ ["No Google Trends data for: " ++ t])) ∧
    (∀ q resp errs, fetch_serp q none resp errs =
      ([], errs ++ ["SERP_API_KEY not set"])) ∧
    (∀ q k errs e, fetch_serp q (some k) (.exn e) errs =
      ([], errs ++ ["SERP fetch failed: " ++ e])) ∧
    (∀ q k errs m, fetch_serp q (some k) (.errorField m) errs =
      ([], errs ++ ["SERP API: " ++ m])) ∧
    (∀ q k errs, fetch_serp q (some k) (.ok []) errs = ([], errs)) := by
  refine ⟨fun q st sp errs => rfl, fun q k sp errs e => rfl,
    fun q k sp errs m => rfl, fun q k sp errs => rfl, ?_, ?_,
    fun t resp errs => rfl, fun t errs e => rfl, fun t errs rising => rfl,
    fun q resp errs => rfl, fun q k errs e => rfl, fun q k errs m => rfl,
    fun q k errs => rfl⟩
  · intro q k errs e items h1 h2
    simp [fetch_youtube, h1, h2]
  · intro q k sp errs items h1 h2
    simp [fetch_youtube, h1, h2]

/-- Witness for C3 (amended): a search response whose single item has no
video identifier makes the video fetch return empty without appending an
error. -/
theorem C3_amended_witness :
    fetch_youtube "ai" (some "k") (.ok [⟨none, "T", "C", "D"⟩]) (.ok []) [] =
      ([], []) :=
  C3_amended.2.2.2.2.2.1 "ai" "k" (.ok []) [] [⟨none, "T", "C", "D"⟩]
    (by decide) (by decide)

theorem occursIn_context_of_videos {p : String} (d : CollectedData)
    (h : occursIn p (videosSection d.youtube_videos)) :
    occursIn p d.to_prompt_context := by
  rw [to_prompt_context_eq]
  exact occursIn_append_left _ (occursIn_append_left _
    (occursIn_append_left _ (occursIn_append_right _ h)))

theorem occursIn_context_of_trends {p : String} (d : CollectedData)
    (h : occursIn p (trendsSection d.trends)) :
    occursIn p d.to_prompt_context := by
  rw [to_prompt_context_eq]
  exact occursIn_append_left _ (occursIn_append_left _
    (occursIn_append_right _ h))

/-- C4 counterexample: in the snapshot whose only record holds average
interest 253/5 = 50.6, the serialized context contains the number 51 — the
average rounded by the `:.0f` format — although 51 is not the literal value
of any numeric field of the snapshot, refuting the no-rounding claim. -/
theorem C4_counterexample :
    51 ∈ numbersIn roundedTrendSnapshot.to_prompt_context ∧
    ¬((51 : ℚ) ∈ literalNumericValues roundedTrendSnapshot) := by
  constructor
  · have hr : rhe ((253 : ℚ)/5) = 51 := by
      unfold rhe
      have hf : ⌊(253:ℚ)/5⌋ = 50 := by norm_num [Int.floor_eq_iff]
      rw [hf]
      norm_num
    have h51 : f0 ((253 : ℚ)/5) = "51" := by
      unfold f0
      rw [hr]
      rfl
    rw [to_prompt_context_eq]
    simp only [roundedTrendSnapshot, trendsSection, List.foldl, renderTrend]
    rw [h51]
    decide
  · intro hmem
    have hvals : literalNumericValues roundedTrendSnapshot =
        [((80 : ℤ) : ℚ), 253/5] := rfl
    rw [hvals] at hmem
    simp only [List.mem_cons, List.not_mem_nil, or_false] at hmem
    rcases hmem with h | h <;> norm_num at h

/-- C4 amended: every view count, like count and current interest rendered by
`to_prompt_context` is the literal field value of the corresponding record
(counts with thousands separators), while the trend average interest is
rendered rounded to the nearest whole number (half to even, so within 1/2 of
the stored value) rather than literally. -/
theorem C4_amended (d : CollectedData) :
    (∀ v ∈ d.youtube_videos.take 10,
      occursIn ("\n   Views: " ++ fmtComma v.view_count ++ " | Likes: " ++
        fmtComma v.like_count ++ "\n   Published: ") d.to_prompt_context) ∧
    (∀ t ∈ d.trends,
      occursIn ("\"\n- Interest: " ++ toString t.current_interest ++
        "/100 (avg: " ++ f0 t.average_interest ++ ")\n- Direction: ")
        d.to_prompt_context) ∧
    (∀ a : ℚ, f0 a = toString (rhe a) ∧ |(rhe a : ℚ) - a| ≤ 1/2) := by
  refine ⟨?_, ?_, fun a => ⟨rfl, rhe_close a⟩⟩
  · intro v hv
    obtain ⟨i, hi⟩ := mem_enumFrom_of_mem 1 hv
    apply occursIn_context_of_videos
    have hne : d.youtube_videos.isEmpty = false := by
      cases hl : d.youtube_videos with
      | nil =>
        rw [hl] at hv
        simp at hv
      | cons a l => simp [hl]
    have hsec : videosSection d.youtube_videos =
        "### TOP YOUTUBE VIDEOS (REAL):\n" ++
          List.foldl (fun acc iv => acc ++ renderVideo iv.1 iv.2) ""
            (List.enumFrom 1 (d.youtube_videos.take 10)) := by
      unfold videosSection
      rw [if_neg (by simp [hne])]
    rw [hsec]
    apply occursIn_append_right
    refine occursIn_trans ?_
      (occursIn_foldl_mem (fun iv => renderVideo iv.1 iv.2)
        (List.enumFrom 1 (d.youtube_videos.take 10)) "" (i, v) hi)
    exact occursIn_of_eq_append _ _
      ("\n" ++ toString i ++ ". \"" ++ v.title ++ "\"\n   Channel: " ++
        v.channel_name)
      (v.publish_date ++ "\n   URL: " ++ v.url ++ "\n")
      (renderVideo_split i v)
  · intro t ht
    apply occursIn_context_of_trends
    have hne : d.trends.isEmpty = false := by
      cases hl : d.trends with
      | nil =>
        rw [hl] at ht
        simp at ht
      | cons a l => simp [hl]
    have hsec : trendsSection d.trends =
        "\n### GOOGLE TRENDS (REAL):\n" ++
          List.foldl (fun acc t => acc ++ renderTrend t) "" d.trends := by
      unfold trendsSection
      rw [if_neg (by simp [hne])]
    rw [hsec]
    apply occursIn_append_right
    refine occursIn_trans ?_
      (occursIn_foldl_mem renderTrend d.trends "" t ht)
    exact occursIn_of_eq_append _ _
      ("\nKeyword: \"" ++ t.keyword)
      (t.trend_direction ++ "\n- Rising queries: " ++
        (if t.rising_queries.isEmpty then "None"
         else String.intercalate ", " (t.rising_queries.take 5)) ++ "\n")
      (renderTrend_split t)

/-- Witness for C4 (amended): the sample video's counts appear verbatim, with
thousands separators, in the serialized context. -/
theorem C4_amended_witness :
    occursIn ("\n   Views: " ++ fmtComma 150000 ++ " | Likes: " ++
      fmtComma 1200 ++ "\n   Published: ")
      sampleVideoSnapshot.to_prompt_context :=
  (C4_amended sampleVideoSnapshot).1 sampleVideo (by decide)

/-- C6: `to_prompt_context` renders, in fixed order, the header, the video
section (capped at 10 videos, or the no-data marker exactly when the list is
empty), the trend section (marker exactly when empty; each trend renders at
most 5 rising queries), the questions section (capped at 10, marker exactly
when empty), and the errors section, which lists every accumulated error
verbatim and is omitted (empty) exactly when the error list is empty. -/
theorem C6_fixed_layout (d : CollectedData) :
    d.to_prompt_context =
      headerSection d ++ videosSection d.youtube_videos ++
        trendsSection d.trends ++ questionsSection d.serp_questions ++
        errorsSection d.errors ∧
    (videosSection d.youtube_videos = "### YOUTUBE: No data (API issue)\n" ↔
      d.youtube_videos = []) ∧
    (trendsSection d.trends = "\n### GOOGLE TRENDS: No data\n" ↔
      d.trends = []) ∧
    (questionsSection d.serp_questions = "\n### SERP QUESTIONS: No data\n" ↔
      d.serp_questions = []) ∧
    videosSection d.youtube_videos =
      videosSection (d.youtube_videos.take 10) ∧
    questionsSection d.serp_questions =
      questionsSection (d.serp_questions.take 10) ∧
    (∀ t : TrendData, renderTrend t =
      renderTrend { t with rising_queries := t.rising_queries.take 5 }) ∧
    (errorsSection d.errors = "" ↔ d.errors = []) ∧
    (∀ e ∈ d.errors,
      occursIn ("- " ++ e ++ "\n") (errorsSection d.errors)) := by
  refine ⟨to_prompt_context_eq d, ?_, ?_, ?_, ?_, ?_, ?_, ?_, ?_⟩
  · constructor
    · intro h
      by_contra hne
      have hne' : d.youtube_videos.isEmpty = false := by
        cases hl : d.youtube_videos with
        | nil => exact absurd hl hne
        | cons a l => simp [hl]
      have hsec : videosSection d.youtube_videos =
          "### TOP YOUTUBE VIDEOS (REAL):\n" ++
            List.foldl (fun acc iv => acc ++ renderVideo iv.1 iv.2) ""
              (List.enumFrom 1 (d.youtube_videos.take 10)) := by
        unfold videosSection
        rw [if_neg (by simp [hne'])]
      rw [hsec] at h
      exact append_ne_of_get _ _ 4 (by decide) (by decide) h
    · intro h
      simp [videosSection, h]
  · constructor
    · intro h
      by_contra hne
      have hne' : d.trends.isEmpty = false := by
        cases hl : d.trends with
        | nil => exact absurd hl hne
        | cons a l => simp [hl]
      have hsec : trendsSection d.trends =
          "\n### GOOGLE TRENDS (REAL):\n" ++
            List.foldl (fun acc t => acc ++ renderTrend t) "" d.trends := by
        unfold trendsSection
        rw [if_neg (by simp [hne'])]
      rw [hsec] at h
      exact append_ne_of_get _ _ 18 (by decide) (by decide) h
    · intro h
      simp [trendsSection, h]
  · constructor
    · intro h
      by_contra hne
      have hne' : d.serp_questions.isEmpty = false := by
        cases hl : d.serp_questions with
        | nil => exact absurd hl hne
        | cons a l => simp [hl]
      have hsec : questionsSection d.serp_questions =
          "\n### PEOPLE ALSO ASK (REAL):\n" ++
            List.foldl (fun acc q => acc ++ ("- " ++ q ++ "\n")) ""
              (d.serp_questions.take 10) := by
        unfold questionsSection
        rw [if_neg (by simp [hne'])]
      rw [hsec] at h
      exact append_ne_of_get _ _ 5 (by decide) (by decide) h
    · intro h
      simp [questionsSection, h]
  · cases hl : d.youtube_videos with
    | nil => rfl
    | cons a l => simp [videosSection, List.take_take]
  · cases hl : d.serp_questions with
    | nil => rfl
    | cons a l => simp [questionsSection, List.take_take]
  · intro t
    cases hl : t.rising_queries with
    | nil => simp [renderTrend, hl]
    | cons a l => simp [renderTrend, hl, List.take_take]
  · constructor
    · intro h
      by_contra hne
      have hne' : d.errors.isEmpty = false := by
        cases hl : d.errors with
        | nil => exact absurd hl hne
        | cons a l => simp [hl]
      have hsec : errorsSection d.errors =
          "\n### DATA COLLECTION ISSUES:\n" ++
            List.foldl (fun acc e => acc ++ ("- " ++ e ++ "\n")) ""
              d.errors := by
        unfold errorsSection
        rw [if_neg (by simp [hne'])]
      rw [hsec] at h
      exact append_ne_of_get _ _ 0 (by decide) (by decide) h
    · intro h
      simp [errorsSection, h]
  · intro e he
    have hne' : d.errors.isEmpty = false := by
      cases hl : d.errors with
      | nil =>
        rw [hl] at he
        simp at he
      | cons a l => simp [hl]
    have hsec : errorsSection d.errors =
        "\n### DATA COLLECTION ISSUES:\n" ++
          List.foldl (fun acc e => acc ++ ("- " ++ e ++ "\n")) ""
            d.errors := by
      unfold errorsSection
      rw [if_neg (by simp [hne'])]
    rw [hsec]
    exact occursIn_append_right _
      (occursIn_foldl_mem (fun e => "- " ++ e ++ "\n") d.errors "" e he)

/-- Witness for C6: a concrete accumulated error appears verbatim in the
errors section. -/
theorem C6_fixed_layout_witness :
    occursIn ("- " ++ "SERP_API_KEY not set" ++ "\n")
      (errorsSection sampleVideoSnapshot.errors) :=
  (C6_fixed_layout sampleVideoSnapshot).2.2.2.2.2.2.2.2 "SERP_API_KEY not set"
    (by decide)
